import Mathlib

/-!
Shallow embedding of the order-creation path, cache accessors and circuit
breaker of the e-commerce microservices repository
(order-service `routes/orders.ts`, `services/externalServices.ts`,
`models/Order.ts`, and the shared redis cache module), with theorems
checking the claims of the specification against it.

Conventions: JS numbers standing for prices/amounts are modelled as `Int`
(exact integer arithmetic stands in for JS float arithmetic), quantities and
stock as `Nat`; the mongo store is a list of orders addressed
by position; the redis keyspace is an association list keyed by `String`;
`Promise.all(items.map f)` is modelled as the deterministic in-order
traversal returning the first error; try/catch around a fallible store call
is modelled by an explicit `Except` argument for the underlying call's
outcome.
-/

deriving instance DecidableEq for Except

namespace ECom

/-- A product as returned by the product service (`models/Product.ts` /
`response.data.product` in `externalServices.ts`). -/
structure Product where
  _id : String
  name : String
  price : Int
  stock : Nat
deriving DecidableEq, Repr

/-- The ways an underlying product fetch through the breaker can fail
(HTTP error status, timeout, network failure, breaker open). -/
inductive FetchError where
  | httpError (code : Nat)
  | timeout
  | networkFailure
  | breakerOpen
deriving DecidableEq, Repr

/-- One line of the `items` array of a `POST /orders` body. -/
structure InputItem where
  productId : String
  quantity : Nat
deriving DecidableEq, Repr

/-- A validated line item (`IOrderItem` in `models/Order.ts`). -/
structure OrderItem where
  productId : String
  productName : String
  quantity : Nat
  price : Int
deriving DecidableEq, Repr

/-- `getProduct` in `externalServices.ts`: fire the breaker-wrapped fetch;
any error whatsoever is caught and rethrown as `Product not found: <id>`. -/
def getProduct (fetch : String → Except FetchError Product) (productId : String) :
    Except String Product :=
  match fetch productId with
  | .ok p => .ok p
  | .error _ => .error ("Product not found: " ++ productId)

/-- The per-item mapper inside `validateProductsParallel`: fetch the product,
reject if `product.stock < item.quantity`, otherwise snapshot id, name,
quantity and price. -/
def validateItem (fetch : String → Except FetchError Product) (item : InputItem) :
    Except String OrderItem :=
  match getProduct fetch item.productId with
  | .error e => .error e
  | .ok product =>
    if product.stock < item.quantity then
      .error ("Insufficient stock for " ++ product.name ++ ". Available: "
        ++ toString product.stock ++ ", Requested: " ++ toString item.quantity)
    else
      .ok { productId := product._id, productName := product.name,
            quantity := item.quantity, price := product.price }

/-- `validateProductsParallel` in `externalServices.ts`:
`Promise.all(items.map ...)` — all lines validate or the whole call rejects
(modelled as the in-order traversal returning the first error). -/
def validateProductsParallel (fetch : String → Except FetchError Product) :
    List InputItem → Except String (List OrderItem)
  | [] => .ok []
  | item :: rest =>
    match validateItem fetch item with
    | .error e => .error e
    | .ok v =>
      match validateProductsParallel fetch rest with
      | .error e => .error e
      | .ok vs => .ok (v :: vs)

/-! ## Redis keyspace and the shared cache accessor module -/

/-- A redis keyspace: an association list of keys and values (real redis
keys are unique; theorems that count deletions assume `Nodup` keys). -/
abbrev KV (α : Type) := List (String × α)

/-- Failure of the underlying redis client (connection error, command
timeout); inside the cache accessors every such failure is caught. -/
inductive RedisError where
  | connectionFailure
  | commandTimeout
deriving DecidableEq, Repr

/-- `redis.get key`: the stored value, if the key is present. -/
def redisGet {α : Type} (kv : KV α) (key : String) : Option α :=
  (kv.find? (fun e => e.1 = key)).map (fun e => e.2)

/-- `redis.setex key ttl value`: overwrite the binding for `key`. -/
def redisPut {α : Type} (kv : KV α) (key : String) (v : α) : KV α :=
  (key, v) :: kv.filter (fun e => e.1 ≠ key)

/-- `redis.del key`: drop every binding for `key`. -/
def redisDel {α : Type} (kv : KV α) (key : String) : KV α :=
  kv.filter (fun e => e.1 ≠ key)

/-- `redis.del(...keys)`: one variadic DEL dropping every listed key. -/
def redisDelMulti {α : Type} (kv : KV α) (keys : List String) : KV α :=
  kv.filter (fun e => e.1 ∉ keys)

/-- Helper for the `*` case of glob matching: try the continuation on the
string and on each of its suffixes. -/
def globStar (continue_ : List Char → Bool) : List Char → Bool
  | [] => continue_ []
  | c :: s => continue_ (c :: s) || globStar continue_ s

/-- Redis glob matching on character lists: `*` matches any run, `?` any one
character, everything else literally (the subset of redis `MATCH` syntax the
repository uses, plus `?`). -/
def globMatch : List Char → List Char → Bool
  | [], s => s.isEmpty
  | '*' :: p, s => globStar (globMatch p) s
  | '?' :: p, s =>
    match s with
    | [] => false
    | _ :: s' => globMatch p s'
  | a :: p, s =>
    match s with
    | [] => false
    | c :: s' => a = c && globMatch p s'

/-- Glob matching on strings, as redis `SCAN ... MATCH pattern` applies it. -/
def globMatchStr (pattern key : String) : Bool :=
  globMatch pattern.data key.data

/-- One `SCAN` cursor walk, fuelled for structural recursion: successive
pages of at most 100 keys (`COUNT 100` in the source); `scanChunks` supplies
enough fuel for the whole keyspace. -/
def scanChunksFuel : Nat → List String → List (List String)
  | _, [] => []
  | 0, _ :: _ => []
  | fuel + 1, k :: rest => (k :: rest).take 100 :: scanChunksFuel fuel ((k :: rest).drop 100)

/-- The pages a full `SCAN` cursor walk over the keyspace returns. -/
def scanChunks (l : List String) : List (List String) :=
  scanChunksFuel l.length l

/-- The body of the `do … while` loop of `cache.delPattern`: for each scan
page, the keys of the page matching the pattern are deleted (one variadic
`redis.del`) and counted. -/
def delPatternGo {α : Type} (pattern : String) :
    List (List String) → KV α → Nat → KV α × Nat
  | [], kv, acc => (kv, acc)
  | page :: rest, kv, acc =>
    let matched := page.filter (fun k => globMatchStr pattern k)
    delPatternGo pattern rest (redisDelMulti kv matched) (acc + matched.length)

namespace cache

/-- `cache.get`: `redis.get` inside try/catch — `null` on any store error,
`null` when absent, the parsed value otherwise. `failure` is the outcome of
the underlying call: `some e` means the client raised `e`. -/
def get {α : Type} (kv : KV α) (failure : Option RedisError) (key : String) :
    Option α :=
  match failure with
  | some _ => none
  | none => redisGet kv key

/-- `cache.set`: `redis.setex` inside try/catch — returns the new keyspace
and `true`, or leaves the keyspace alone and returns `false` on store error.
The TTL is recorded by redis, not by the accessor; expiry is elided. -/
def set {α : Type} (kv : KV α) (failure : Option RedisError) (key : String)
    (v : α) (ttlSeconds : Nat) : KV α × Bool :=
  match failure, ttlSeconds with
  | some _, _ => (kv, false)
  | none, _ => (redisPut kv key v, true)

/-- `cache.del`: `redis.del` inside try/catch. -/
def del {α : Type} (kv : KV α) (failure : Option RedisError) (key : String) :
    KV α × Bool :=
  match failure with
  | some _ => (kv, false)
  | none => (redisDel kv key, true)

/-- `cache.delPattern`: SCAN-paged pattern deletion inside try/catch —
returns the keyspace with every matching key removed and the count of
deleted keys, or `(kv, 0)` on store error. -/
def delPattern {α : Type} (kv : KV α) (failure : Option RedisError)
    (pattern : String) : KV α × Nat :=
  match failure with
  | some _ => (kv, 0)
  | none => delPatternGo pattern (scanChunks (kv.map (fun e => e.1))) kv 0

/-- `cache.mget`: `redis.mget` inside try/catch — one `Option` per requested
key, all `none` on store error. -/
def mget {α : Type} (kv : KV α) (failure : Option RedisError)
    (keys : List String) : List (Option α) :=
  match failure with
  | some _ => keys.map (fun _ => none)
  | none => keys.map (fun k => redisGet kv k)

end cache

/-! ## The order store and the route handlers of `routes/orders.ts` -/

/-- The closed status set of `models/Order.ts`. -/
inductive OrderStatus where
  | pending
  | confirmed
  | shipped
  | delivered
  | cancelled
deriving DecidableEq, Repr

/-- An order document (`IOrder`): timestamps are elided, the mongo `_id` is
the order's position in the store list. -/
structure Order where
  userId : String
  items : List OrderItem
  totalAmount : Int
  status : OrderStatus
deriving DecidableEq, Repr

/-- Values the order service writes to the cache (the JSON payloads,
structured instead of serialized). -/
inductive CacheVal where
  | userListing (orders : List Order) (userId : String) (page limit total : Nat)
  | allListing (orders : List Order) (page limit total : Nat)
  | singleOrder (o : Order)
  | orderItems (its : List OrderItem)
deriving DecidableEq, Repr

/-- Mongo collection plus redis keyspace visible to the order service. -/
structure AppState where
  store : List Order
  kv : KV CacheVal
deriving DecidableEq, Repr

/-- An HTTP response, reduced to what the claims mention: the status code
and the `error` field of the JSON body (`none` on success). -/
structure Response where
  status : Nat
  error : Option String
deriving DecidableEq, Repr

/-- The cache key `getOrdersByUser` reads and writes:
`orders:user:${userId}:${pageNum}:${limitNum}`. -/
def userOrdersCacheKey (userId : String) (pageNum limitNum : Nat) : String :=
  "orders:user:" ++ userId ++ ":" ++ toString pageNum ++ ":" ++ toString limitNum

/-- The cache key `getAllOrders` reads and writes:
`orders:all:${userId ∨ all}:${status ∨ all}:${pageNum}:${limitNum}`. -/
def allOrdersCacheKey (userFilter statusFilter : String) (pageNum limitNum : Nat) :
    String :=
  "orders:all:" ++ userFilter ++ ":" ++ statusFilter ++ ":"
    ++ toString pageNum ++ ":" ++ toString limitNum

/-- `total = items.reduce((t, item) => t + item.price * item.quantity, 0)`. -/
def orderTotal (items : List OrderItem) : Int :=
  items.foldl (fun t item => t + item.price * (item.quantity : Int)) 0

/-- `createOrder` in `routes/orders.ts`: reject missing/empty input with 400;
validate the items; on success persist the order with status `pending`,
delete the exact key `orders:user:${userId}` and pattern-delete
`orders:all:*`, and answer 201; any thrown error (validator failure) lands
in the catch block, which answers 500 with the error's message. -/
def createOrder (fetch : String → Except FetchError Product)
    (userId : String) (items : List InputItem) (s : AppState) :
    Response × AppState :=
  if userId = "" ∨ items = [] then
    ({ status := 400, error := some "Invalid order data: userId and items are required" }, s)
  else
    match validateProductsParallel fetch items with
    | .error msg => ({ status := 500, error := some msg }, s)
    | .ok validatedItems =>
      let order : Order :=
        { userId := userId, items := validatedItems,
          totalAmount := orderTotal validatedItems, status := .pending }
      let store' := s.store ++ [order]
      let kv₁ := (cache.del s.kv none ("orders:user:" ++ userId)).1
      let kv₂ := (cache.delPattern kv₁ none "orders:all:*").1
      ({ status := 201, error := none }, { store := store', kv := kv₂ })

/-- The pagination of the mongo query: `.skip((page-1)*limit).limit(limit)`
(the `createdAt` sort is elided — the store list order stands in for it). -/
def paginate (l : List Order) (pageNum limitNum : Nat) : List Order :=
  (l.drop ((pageNum - 1) * limitNum)).take limitNum

/-- `getOrdersByUser` in `routes/orders.ts`: cache-aside read of
`orders:user:${userId}:${page}:${limit}` with the limit capped at 50; on a
miss, query, then write the result back with the user-orders TTL. -/
def getOrdersByUser (userId : String) (pageNum limitRaw : Nat) (s : AppState) :
    Response × AppState :=
  let limitNum := min limitRaw 50
  let cacheKey := userOrdersCacheKey userId pageNum limitNum
  match cache.get s.kv none cacheKey with
  | some _ => ({ status := 200, error := none }, s)
  | none =>
    let matching := s.store.filter (fun o => o.userId = userId)
    let result : CacheVal :=
      .userListing (paginate matching pageNum limitNum) userId
        pageNum limitNum matching.length
    let kv' := (cache.set s.kv none cacheKey result 120).1
    ({ status := 200, error := none }, { s with kv := kv' })

/-- The `validStatuses.includes(status)` check of `updateOrderStatus`. -/
def parseStatus : String → Option OrderStatus
  | "pending" => some .pending
  | "confirmed" => some .confirmed
  | "shipped" => some .shipped
  | "delivered" => some .delivered
  | "cancelled" => some .cancelled
  | _ => none

/-- `updateOrderStatus` in `routes/orders.ts`: 400 on a status outside the
closed set, 404 on a missing order, otherwise a single-field status update
followed by deletion of `order:${id}`, the exact key
`orders:user:${userId}`, and the `orders:all:*` pattern. -/
def updateOrderStatus (id : Nat) (status : String) (s : AppState) :
    Response × AppState :=
  match parseStatus status with
  | none =>
    ({ status := 400,
       error := some "Invalid status. Must be one of: pending, confirmed, shipped, delivered, cancelled" }, s)
  | some st =>
    match s.store.get? id with
    | none => ({ status := 404, error := some "Order not found" }, s)
    | some order =>
      let store' := s.store.set id { order with status := st }
      let kv₁ := (cache.del s.kv none ("order:" ++ toString id)).1
      let kv₂ := (cache.del kv₁ none ("orders:user:" ++ order.userId)).1
      let kv₃ := (cache.delPattern kv₂ none "orders:all:*").1
      ({ status := 200, error := none }, { store := store', kv := kv₃ })

/-- `cancelOrder` in `routes/orders.ts`: 404 on a missing order, 400 unless
the current status is `pending` or `confirmed`, otherwise set the status to
`cancelled` and perform the same cache invalidation as `updateOrderStatus`. -/
def cancelOrder (id : Nat) (s : AppState) : Response × AppState :=
  match s.store.get? id with
  | none => ({ status := 404, error := some "Order not found" }, s)
  | some order =>
    if order.status = .pending ∨ order.status = .confirmed then
      let store' := s.store.set id { order with status := .cancelled }
      let kv₁ := (cache.del s.kv none ("order:" ++ toString id)).1
      let kv₂ := (cache.del kv₁ none ("orders:user:" ++ order.userId)).1
      let kv₃ := (cache.delPattern kv₂ none "orders:all:*").1
      ({ status := 200, error := none }, { store := store', kv := kv₃ })
    else
      ({ status := 400, error := some "Cannot cancel order in current status" }, s)

/-! ## Circuit breaker -/

/-- The option record passed to the breaker constructor
(`circuitBreakerOptions` in `externalServices.ts`). -/
structure BreakerOptions where
  timeout : Nat
  errorThresholdPercentage : Nat
  resetTimeout : Nat
  volumeThreshold : Nat
deriving DecidableEq, Repr

/-- The literal options of `externalServices.ts`: 5s call timeout, 50%
error threshold, 30s reset, minimum volume of 10 calls. -/
def circuitBreakerOptions : BreakerOptions :=
  { timeout := 5000, errorThresholdPercentage := 50,
    resetTimeout := 30000, volumeThreshold := 10 }

/-- Breaker states of the spec's state machine. -/
inductive BreakerState where
  | closed
  | opened
  | halfOpen
deriving DecidableEq, Repr

/-- Modelled from the spec: the breaker implementation is the `opossum`
dependency, not repository code — only its options are in `src`. Process
state per dependency (spec §3 "Circuit breaker state"): current state, a
rolling window of call outcomes (kept here as attempt/failure counters),
and the time the breaker last opened. Times are milliseconds. -/
structure Breaker where
  state : BreakerState
  windowCalls : Nat
  windowFailures : Nat
  openedAt : Nat
deriving DecidableEq, Repr

/-- What the network would do for one call: whether it would succeed, and
how long it would take (milliseconds). -/
structure NetOutcome where
  succeeded : Bool
  duration : Nat
deriving DecidableEq, Repr

/-- Result of one call through the breaker: `delivered b` means the network
was attempted and the call succeeded iff `b`; `failFast` means the breaker
rejected the call without any network attempt. -/
inductive CallResult where
  | delivered (success : Bool)
  | failFast
deriving DecidableEq, Repr

/-- Modelled from the spec (§4.2): a call outcome counts as a failure when
the operation failed or ran at least as long as the per-call timeout
("timeout counts as failure for breaker accounting"). -/
def countsAsFailure (opts : BreakerOptions) (net : NetOutcome) : Bool :=
  !net.succeeded || opts.timeout ≤ net.duration

/-- Modelled from the spec (§4.2): trip when total attempts reach the
minimum volume and the failure ratio reaches the threshold percentage. -/
def shouldTrip (opts : BreakerOptions) (calls failures : Nat) : Bool :=
  opts.volumeThreshold ≤ calls && opts.errorThresholdPercentage * calls ≤ failures * 100

/-- Modelled from the spec (§4.2): the half-open probe — a successful probe
closes the breaker and resets the window, a failed probe re-opens it. -/
def breakerProbe (opts : BreakerOptions) (b : Breaker) (now : Nat)
    (net : NetOutcome) : CallResult × Breaker :=
  if countsAsFailure opts net then
    (.delivered false, { b with state := .opened, openedAt := now })
  else
    (.delivered true,
     { state := .closed, windowCalls := 0, windowFailures := 0, openedAt := 0 })

/-- Modelled from the spec (§4.2): one call through the breaker at time
`now`. Closed: attempt the network, account the outcome, trip to open when
the window qualifies. Open: before the cool-down elapses, fail fast with no
network attempt and no state change; once it has elapsed the call is the
half-open probe. Half-open: probe. -/
def breakerCall (opts : BreakerOptions) (b : Breaker) (now : Nat)
    (net : NetOutcome) : CallResult × Breaker :=
  match b.state with
  | .closed =>
    let fail := countsAsFailure opts net
    let calls := b.windowCalls + 1
    let failures := b.windowFailures + (if fail then 1 else 0)
    if shouldTrip opts calls failures then
      (.delivered (!fail),
       { state := .opened, windowCalls := calls, windowFailures := failures,
         openedAt := now })
    else
      (.delivered (!fail), { b with windowCalls := calls, windowFailures := failures })
  | .opened =>
    if now < b.openedAt + opts.resetTimeout then
      (.failFast, b)
    else
      breakerProbe opts b now net
  | .halfOpen => breakerProbe opts b now net

/-! ## Fixtures used by witnesses and counterexamples -/

/-- A product with stock 5 at unit price 10, as in the spec's scenarios. -/
def widget : Product := { _id := "p1", name := "Widget", price := 10, stock := 5 }

/-- A second product, stock 7 at unit price 3. -/
def gadget : Product := { _id := "p2", name := "Gadget", price := 3, stock := 7 }

/-- A fetch environment where `p1` and `p2` exist and everything else is a
network failure. -/
def fetchTwo : String → Except FetchError Product := fun pid =>
  if pid = "p1" then .ok widget
  else if pid = "p2" then .ok gadget
  else .error .networkFailure

/-- Empty store and empty cache. -/
def emptyState : AppState := { store := [], kv := [] }

/-- A pending order for user `u1`, matching the spec's first scenario. -/
def pendingOrder : Order :=
  { userId := "u1", items := [⟨"p1", "Widget", 2, 10⟩],
    totalAmount := 20, status := .pending }

/-- A shipped order for user `u1`. -/
def shippedOrder : Order := { pendingOrder with status := .shipped }

/-! ## Helper lemmas -/

theorem validateProductsParallel_append_error
    (fetch : String → Except FetchError Product)
    (pre post : List InputItem) (item : InputItem) (msg : String)
    (hpre : ∀ it ∈ pre, ∃ v, validateItem fetch it = .ok v)
    (hitem : validateItem fetch item = .error msg) :
    validateProductsParallel fetch (pre ++ item :: post) = .error msg := by
  induction pre with
  | nil => simp [validateProductsParallel, hitem]
  | cons a as ih =>
    obtain ⟨v, hv⟩ := hpre a (by simp)
    have ih' := ih (fun it hit => hpre it (by simp [hit]))
    simp [validateProductsParallel, hv, ih']

theorem createOrder_error_of_validate
    (fetch : String → Except FetchError Product) (userId : String)
    (items : List InputItem) (s : AppState) (msg : String)
    (hu : ¬(userId = "" ∨ items = []))
    (hv : validateProductsParallel fetch items = .error msg) :
    createOrder fetch userId items s = (⟨500, some msg⟩, s) := by
  simp [createOrder, hu, hv]

theorem validateItem_insufficient
    (fetch : String → Except FetchError Product) (item : InputItem) (p : Product)
    (hfetch : fetch item.productId = .ok p) (hstock : p.stock < item.quantity) :
    validateItem fetch item = .error ("Insufficient stock for " ++ p.name
      ++ ". Available: " ++ toString p.stock ++ ", Requested: "
      ++ toString item.quantity) := by
  simp [validateItem, getProduct, hfetch, hstock]

theorem validateItem_notFound
    (fetch : String → Except FetchError Product) (item : InputItem) (e : FetchError)
    (hfetch : fetch item.productId = .error e) :
    validateItem fetch item = .error ("Product not found: " ++ item.productId) := by
  simp [validateItem, getProduct, hfetch]

theorem orderTotal_eq_sum (items : List OrderItem) :
    orderTotal items = (items.map (fun i => i.price * (i.quantity : Int))).sum := by
  have key : ∀ (l : List OrderItem) (a : Int),
      l.foldl (fun t item => t + item.price * (item.quantity : Int)) a
        = a + (l.map (fun i => i.price * (i.quantity : Int))).sum := by
    intro l
    induction l with
    | nil => intro a; simp
    | cons hd tl ih =>
      intro a
      simp [ih]
      ring
  simpa [orderTotal] using key items 0

theorem map_set_proj {α β : Type} (l : List α) (i : Nat) (a : α) (f : α → β)
    (h : ∀ x, l.get? i = some x → f a = f x) : (l.set i a).map f = l.map f := by
  induction l generalizing i with
  | nil => simp
  | cons hd tl ih =>
    cases i with
    | zero => simpa using h hd rfl
    | succ n =>
      simpa using ih n (fun x hx => h x hx)

theorem scanChunksFuel_flatten (fuel : Nat) :
    ∀ l : List String, l.length ≤ fuel → (scanChunksFuel fuel l).flatten = l := by
  induction fuel with
  | zero =>
    intro l hl
    cases l with
    | nil => rfl
    | cons k rest => simp at hl
  | succ n ih =>
    intro l hl
    cases l with
    | nil => rfl
    | cons k rest =>
      have hdrop : ((k :: rest).drop 100).length ≤ n := by
        simp only [List.length_drop, List.length_cons]
        simp only [List.length_cons] at hl
        omega
      have hstep : scanChunksFuel (n + 1) (k :: rest)
          = (k :: rest).take 100 :: scanChunksFuel n ((k :: rest).drop 100) := rfl
      rw [hstep, List.flatten_cons, ih _ hdrop, List.take_append_drop]

theorem scanChunksFuel_page_le (fuel : Nat) :
    ∀ (l : List String) (page : List String),
      page ∈ scanChunksFuel fuel l → page.length ≤ 100 := by
  induction fuel with
  | zero =>
    intro l page hp
    cases l <;> simp [scanChunksFuel] at hp
  | succ n ih =>
    intro l page hp
    cases l with
    | nil => simp [scanChunksFuel] at hp
    | cons k rest =>
      simp only [scanChunksFuel, List.mem_cons] at hp
      rcases hp with h | h
      · subst h
        simpa using List.length_take_le 100 (k :: rest)
      · exact ih _ _ h

theorem redisDelMulti_filter {α : Type} (kv : KV α) (keys : List String) :
    redisDelMulti kv keys = kv.filter (fun e => decide (e.1 ∉ keys)) := rfl

theorem delPatternGo_spec {α : Type} (pattern : String) :
    ∀ (pages : List (List String)) (kv : KV α) (acc : Nat),
      delPatternGo pattern pages kv acc =
        (kv.filter (fun e =>
           decide (¬(e.1 ∈ pages.flatten ∧ globMatchStr pattern e.1 = true))),
         acc + (pages.flatten.filter (fun k => globMatchStr pattern k)).length) := by
  intro pages
  induction pages with
  | nil =>
    intro kv acc
    simp [delPatternGo]
  | cons page rest ih =>
    intro kv acc
    rw [delPatternGo, redisDelMulti_filter, ih]
    refine Prod.ext ?_ ?_
    · show (List.filter _ (List.filter _ kv)) = _
      rw [List.filter_filter]
      refine List.filter_congr ?_
      intro e _
      by_cases hpat : globMatchStr pattern e.1 = true
      · by_cases h1 : e.1 ∈ page <;> by_cases h2 : e.1 ∈ rest.flatten <;>
          simp [List.mem_filter, hpat, h1, h2]
      · simp [List.mem_filter, hpat]
    · show acc + _ + _ = acc + _
      simp only [List.flatten_cons, List.filter_append, List.length_append]
      omega

/-! ## Claim theorems -/

/-- C1: order creation is all-or-nothing — whenever the dependency validator
fails on the item list (insufficient availability, not found, dependency
unavailable, timeout — any `.error`), `createOrder` persists nothing: the
whole application state (store and cache) is returned unchanged. -/
theorem createOrder_all_or_nothing
    (fetch : String → Except FetchError Product) (userId : String)
    (items : List InputItem) (s : AppState) (msg : String)
    (h : validateProductsParallel fetch items = .error msg) :
    (createOrder fetch userId items s).2 = s := by
  by_cases hu : userId = "" ∨ items = []
  · simp [createOrder, hu]
  · rw [createOrder_error_of_validate fetch userId items s msg hu h]

/-- Witness for C1: a list whose second item does not exist fails validation
and `createOrder` leaves the state unchanged. -/
theorem createOrder_all_or_nothing_witness :
    validateProductsParallel fetchTwo [⟨"p1", 2⟩, ⟨"p9", 1⟩]
        = .error "Product not found: p9" ∧
    (createOrder fetchTwo "u1" [⟨"p1", 2⟩, ⟨"p9", 1⟩] emptyState).2 = emptyState :=
  ⟨by decide,
   createOrder_all_or_nothing fetchTwo "u1" [⟨"p1", 2⟩, ⟨"p9", 1⟩] emptyState
     "Product not found: p9" (by decide)⟩

/-- C2 counterexample: the claim says insufficient availability yields HTTP
400; on the spec's own scenario (`quantity` 10 against stock 5) the handler's
catch-all answers 500, and the message names the product by display name. -/
theorem insufficient_stock_responds_500_not_400 :
    (createOrder fetchTwo "u1" [⟨"p1", 10⟩] emptyState).1.status = 500 ∧
    (createOrder fetchTwo "u1" [⟨"p1", 10⟩] emptyState).1.status ≠ 400 ∧
    (createOrder fetchTwo "u1" [⟨"p1", 10⟩] emptyState).1.error =
      some "Insufficient stock for Widget. Available: 5, Requested: 10" := by
  decide

/-- C2 amended: when the first failing line of an order-creation request is
a product whose stock is below the requested quantity, `POST /orders`
responds with HTTP status 500 (the handler's catch-all, not 400) whose error
message identifies the offending product by name together with its available
quantity and the requested quantity, and persists nothing. -/
theorem insufficient_stock_error_surfaced
    (fetch : String → Except FetchError Product) (userId : String) (s : AppState)
    (pre post : List InputItem) (item : InputItem) (p : Product)
    (hu : userId ≠ "")
    (hpre : ∀ it ∈ pre, ∃ v, validateItem fetch it = .ok v)
    (hfetch : fetch item.productId = .ok p)
    (hstock : p.stock < item.quantity) :
    (createOrder fetch userId (pre ++ item :: post) s).1.status = 500 ∧
    (createOrder fetch userId (pre ++ item :: post) s).1.error =
      some ("Insufficient stock for " ++ p.name ++ ". Available: "
        ++ toString p.stock ++ ", Requested: " ++ toString item.quantity) ∧
    (createOrder fetch userId (pre ++ item :: post) s).2 = s := by
  have hv := validateProductsParallel_append_error fetch pre post item _ hpre
    (validateItem_insufficient fetch item p hfetch hstock)
  have hne : ¬(userId = "" ∨ pre ++ item :: post = []) := by
    simp [hu]
  rw [createOrder_error_of_validate fetch userId (pre ++ item :: post) s _ hne hv]
  exact ⟨rfl, rfl, rfl⟩

/-- Witness for the amended C2: one in-stock line followed by the
insufficient line; the response is a 500 naming the shortfall. -/
theorem insufficient_stock_error_surfaced_witness :
    (createOrder fetchTwo "u1" [⟨"p2", 1⟩, ⟨"p1", 10⟩] emptyState).1.status = 500 ∧
    (createOrder fetchTwo "u1" [⟨"p2", 1⟩, ⟨"p1", 10⟩] emptyState).1.error =
      some "Insufficient stock for Widget. Available: 5, Requested: 10" ∧
    (createOrder fetchTwo "u1" [⟨"p2", 1⟩, ⟨"p1", 10⟩] emptyState).2 = emptyState := by
  have h := insufficient_stock_error_surfaced fetchTwo "u1" emptyState
    [⟨"p2", 1⟩] [] ⟨"p1", 10⟩ widget (by decide)
    (by
      intro it hit
      rw [List.mem_singleton] at hit
      subst hit
      exact ⟨⟨"p2", "Gadget", 1, 3⟩, by decide⟩)
    (by decide) (by decide)
  simpa using h

/-- The store holding just `pendingOrder` with an empty cache. -/
def oneOrderState : AppState := { store := [pendingOrder], kv := [] }

/-- `oneOrderState` after the user-listing read path has populated the cache
with the key `orders:user:u1:1:20`. -/
def populatedState : AppState := (getOrdersByUser "u1" 1 20 oneOrderState).2

/-- C3, evaluated at the failing input: the user-listing read path caches
under `orders:user:u1:1:20` (page and limit in the key), but `createOrder`,
`updateOrderStatus` and `cancelOrder` delete only the exact key
`orders:user:u1`, which the read path never writes — so after each of the
three successful mutations the user's listing entry is still cached. The
claim (and the spec's "invalidates this user's order-listing cache
entries") fails on the code. -/
theorem user_listing_cache_survives_mutations :
    (cache.get populatedState.kv none (userOrdersCacheKey "u1" 1 20)).isSome = true ∧
    (createOrder fetchTwo "u1" [⟨"p1", 2⟩] populatedState).1.status = 201 ∧
    (cache.get (createOrder fetchTwo "u1" [⟨"p1", 2⟩] populatedState).2.kv none
        (userOrdersCacheKey "u1" 1 20)).isSome = true ∧
    (updateOrderStatus 0 "confirmed" populatedState).1.status = 200 ∧
    (cache.get (updateOrderStatus 0 "confirmed" populatedState).2.kv none
        (userOrdersCacheKey "u1" 1 20)).isSome = true ∧
    (cancelOrder 0 populatedState).1.status = 200 ∧
    (cache.get (cancelOrder 0 populatedState).2.kv none
        (userOrdersCacheKey "u1" 1 20)).isSome = true := by
  decide

/-- C4: the persisted order's `totalAmount` is the sum over its line items
of price times quantity, fixed at creation; `updateOrderStatus` and
`cancelOrder` change at most the status field — every order's items and
total are untouched. -/
theorem totalAmount_eq_sum_and_stable
    (fetch : String → Except FetchError Product) (userId : String)
    (items : List InputItem) (s : AppState)
    (h : (createOrder fetch userId items s).1.status = 201) :
    (∃ ord, (createOrder fetch userId items s).2.store = s.store ++ [ord] ∧
      ord.totalAmount = (ord.items.map (fun i => i.price * (i.quantity : Int))).sum) ∧
    (∀ (s₂ : AppState) (id : Nat) (st : String),
      (updateOrderStatus id st s₂).2.store.map (fun o => (o.items, o.totalAmount))
        = s₂.store.map (fun o => (o.items, o.totalAmount))) ∧
    (∀ (s₂ : AppState) (id : Nat),
      (cancelOrder id s₂).2.store.map (fun o => (o.items, o.totalAmount))
        = s₂.store.map (fun o => (o.items, o.totalAmount))) := by
  refine ⟨?_, ?_, ?_⟩
  · by_cases hu : userId = "" ∨ items = []
    · exfalso
      simp [createOrder, hu] at h
    · cases hv : validateProductsParallel fetch items with
      | error msg =>
        exfalso
        rw [createOrder_error_of_validate fetch userId items s msg hu hv] at h
        simp at h
      | ok validatedItems =>
        refine ⟨{ userId := userId, items := validatedItems,
                  totalAmount := orderTotal validatedItems, status := .pending },
                ?_, orderTotal_eq_sum validatedItems⟩
        simp [createOrder, hu, hv]
  · intro s₂ id st
    unfold updateOrderStatus
    cases parseStatus st with
    | none => rfl
    | some stVal =>
      cases hget : s₂.store.get? id with
      | none => simp
      | some order =>
        simp only
        refine map_set_proj s₂.store id _ _ ?_
        intro x hx
        rw [hget] at hx
        cases hx
        rfl
  · intro s₂ id
    unfold cancelOrder
    cases hget : s₂.store.get? id with
    | none => rfl
    | some order =>
      by_cases hst : order.status = .pending ∨ order.status = .confirmed
      · simp only [hst, if_true]
        refine map_set_proj s₂.store id _ _ ?_
        intro x hx
        rw [hget] at hx
        cases hx
        rfl
      · simp [hst]

/-- Witness for C4: the spec's scenario — quantity 2 at price 10 persists an
order whose total is the 20 given by the line-item sum, and a later status
update leaves items and totals of every stored order as they were. -/
theorem totalAmount_eq_sum_and_stable_witness :
    (createOrder fetchTwo "u1" [⟨"p1", 2⟩] emptyState).1.status = 201 ∧
    ((∃ ord, (createOrder fetchTwo "u1" [⟨"p1", 2⟩] emptyState).2.store
          = emptyState.store ++ [ord] ∧
        ord.totalAmount
          = (ord.items.map (fun i => i.price * (i.quantity : Int))).sum) ∧
     (∀ (s₂ : AppState) (id : Nat) (st : String),
       (updateOrderStatus id st s₂).2.store.map (fun o => (o.items, o.totalAmount))
         = s₂.store.map (fun o => (o.items, o.totalAmount))) ∧
     (∀ (s₂ : AppState) (id : Nat),
       (cancelOrder id s₂).2.store.map (fun o => (o.items, o.totalAmount))
         = s₂.store.map (fun o => (o.items, o.totalAmount)))) :=
  ⟨by decide,
   totalAmount_eq_sum_and_stable fetchTwo "u1" [⟨"p1", 2⟩] emptyState (by decide)⟩

/-- C5: for an existing order, cancellation succeeds exactly when the
current status is `pending` or `confirmed` — then the stored order becomes
the same order with status `cancelled` — and otherwise answers 400 leaving
the whole state untouched. -/
theorem cancelOrder_iff_pending_or_confirmed
    (id : Nat) (s : AppState) (order : Order)
    (h : s.store.get? id = some order) :
    ((order.status = .pending ∨ order.status = .confirmed) →
      (cancelOrder id s).1.status = 200 ∧
      (cancelOrder id s).2.store = s.store.set id { order with status := .cancelled }) ∧
    (¬(order.status = .pending ∨ order.status = .confirmed) →
      (cancelOrder id s).1.status = 400 ∧ (cancelOrder id s).2 = s) := by
  constructor
  · intro hst
    unfold cancelOrder
    rw [h]
    simp [hst]
  · intro hst
    unfold cancelOrder
    rw [h]
    simp [hst]

/-- Witness for C5: cancelling the pending order succeeds and stores it as
cancelled; cancelling the shipped order answers 400 and changes nothing. -/
theorem cancelOrder_iff_pending_or_confirmed_witness :
    ((cancelOrder 0 oneOrderState).1.status = 200 ∧
     (cancelOrder 0 oneOrderState).2.store
        = oneOrderState.store.set 0 { pendingOrder with status := .cancelled }) ∧
    ((cancelOrder 0 { store := [shippedOrder], kv := [] }).1.status = 400 ∧
     (cancelOrder 0 { store := [shippedOrder], kv := [] }).2
        = { store := [shippedOrder], kv := [] }) :=
  ⟨(cancelOrder_iff_pending_or_confirmed 0 oneOrderState pendingOrder
      (by decide)).1 (by decide),
   (cancelOrder_iff_pending_or_confirmed 0 { store := [shippedOrder], kv := [] }
      shippedOrder (by decide)).2 (by decide)⟩

theorem validateProductsParallel_shape
    (fetch : String → Except FetchError Product) (items : List InputItem)
    (h : ∀ item ∈ items, ∃ p, fetch item.productId = .ok p ∧ item.quantity ≤ p.stock) :
    ∃ vs, validateProductsParallel fetch items = .ok vs ∧
      vs.length = items.length ∧
      ∀ (i : Nat) (item : InputItem), items.get? i = some item →
        ∃ p, fetch item.productId = .ok p ∧
          vs.get? i = some { productId := p._id, productName := p.name,
                             quantity := item.quantity, price := p.price } := by
  induction items with
  | nil =>
    exact ⟨[], rfl, rfl, by intro i item hi; simp at hi⟩
  | cons a rest ih =>
    obtain ⟨p, hp, hq⟩ := h a (by simp)
    have hitem : validateItem fetch a
        = .ok { productId := p._id, productName := p.name,
                quantity := a.quantity, price := p.price } := by
      simp [validateItem, getProduct, hp, Nat.not_lt.mpr hq]
    obtain ⟨vs, hvs, hlen, hpt⟩ := ih (fun it hit => h it (by simp [hit]))
    refine ⟨{ productId := p._id, productName := p.name,
              quantity := a.quantity, price := p.price } :: vs, ?_, ?_, ?_⟩
    · simp [validateProductsParallel, hitem, hvs]
    · simp [hlen]
    · intro i item hi
      cases i with
      | zero =>
        simp only [List.get?_cons_zero, Option.some.injEq] at hi
        subst hi
        exact ⟨p, hp, rfl⟩
      | succ n =>
        simp only [List.get?_cons_succ] at hi ⊢
        exact hpt n item hi

/-- C6: on a non-empty item list where every fetch succeeds and every stock
check passes, the validator answers one validated line per input line, in
input order, each line holding the fetched product's id, name and price as
the snapshot and the requested quantity. -/
theorem validator_returns_lines_in_order
    (fetch : String → Except FetchError Product) (items : List InputItem)
    (hne : items ≠ [])
    (h : ∀ item ∈ items, ∃ p, fetch item.productId = .ok p ∧ item.quantity ≤ p.stock) :
    ∃ vs, validateProductsParallel fetch items = .ok vs ∧
      vs.length = items.length ∧
      ∀ (i : Nat) (item : InputItem), items.get? i = some item →
        ∃ p, fetch item.productId = .ok p ∧
          vs.get? i = some { productId := p._id, productName := p.name,
                             quantity := item.quantity, price := p.price } :=
  validateProductsParallel_shape fetch items h

/-- Witness for C6, at the two-line list `[(p1, 2), (p2, 3)]`. -/
theorem validator_returns_lines_in_order_witness :
    ∃ vs, validateProductsParallel fetchTwo [⟨"p1", 2⟩, ⟨"p2", 3⟩] = .ok vs ∧
      vs.length = ([⟨"p1", 2⟩, ⟨"p2", 3⟩] : List InputItem).length ∧
      ∀ (i : Nat) (item : InputItem),
        ([⟨"p1", 2⟩, ⟨"p2", 3⟩] : List InputItem).get? i = some item →
        ∃ p, fetchTwo item.productId = .ok p ∧
          vs.get? i = some { productId := p._id, productName := p.name,
                             quantity := item.quantity, price := p.price } :=
  validator_returns_lines_in_order fetchTwo [⟨"p1", 2⟩, ⟨"p2", 3⟩]
    (by decide)
    (by
      intro item hit
      rcases List.mem_cons.mp hit with h1 | h2
      · subst h1
        exact ⟨widget, by decide, by decide⟩
      · rw [List.mem_singleton] at h2
        subst h2
        exact ⟨gadget, by decide, by decide⟩)

theorem length_filter_map_fst {α : Type} (pat : String) (kv : KV α) :
    ((kv.map (fun e => e.1)).filter (fun k => globMatchStr pat k)).length
      = (kv.filter (fun e => globMatchStr pat e.1 = true)).length := by
  induction kv with
  | nil => rfl
  | cons e rest ih =>
    by_cases hpat : globMatchStr pat e.1 = true
    · simp [List.filter_cons, hpat, ih]
    · simp [List.filter_cons, hpat, ih]

/-- C7: `delPattern` on a keyspace with distinct keys removes exactly the
entries whose key matches the glob pattern, leaves every other entry,
returns the number of deleted keys, and the underlying scan proceeds in
pages of at most 100 keys (`COUNT 100`) rather than one full-keyspace
read. -/
theorem delPattern_removes_exactly_matches {α : Type} (kv : KV α) (pat : String)
    (hnd : (kv.map (fun e => e.1)).Nodup) :
    (cache.delPattern kv none pat).1
        = kv.filter (fun e => globMatchStr pat e.1 = false) ∧
    (cache.delPattern kv none pat).2
        = (kv.filter (fun e => globMatchStr pat e.1 = true)).length ∧
    ∀ page ∈ scanChunks (kv.map (fun e => e.1)), page.length ≤ 100 := by
  have hflat : (scanChunks (kv.map (fun e => e.1))).flatten = kv.map (fun e => e.1) :=
    scanChunksFuel_flatten _ _ (le_refl _)
  have hspec := delPatternGo_spec (α := α) pat (scanChunks (kv.map (fun e => e.1))) kv 0
  refine ⟨?_, ?_, fun page hp => scanChunksFuel_page_le _ _ page hp⟩
  · show (delPatternGo pat (scanChunks (kv.map (fun e => e.1))) kv 0).1 = _
    rw [hspec]
    simp only [hflat]
    refine List.filter_congr ?_
    intro e he
    have hmem : e.1 ∈ kv.map (fun e => e.1) := List.mem_map_of_mem _ he
    by_cases hpat : globMatchStr pat e.1 = true
    · simp [hmem, hpat]
    · simp [hmem, hpat, Bool.eq_false_iff, Ne, hpat]
  · show (delPatternGo pat (scanChunks (kv.map (fun e => e.1))) kv 0).2 = _
    rw [hspec]
    show 0 + ((scanChunks (kv.map (fun e => e.1))).flatten.filter
        (fun k => globMatchStr pat k)).length = _
    rw [hflat, Nat.zero_add]
    exact length_filter_map_fst pat kv

/-- Witness for C7: a three-entry keyspace where `orders:all:*` matches two
keys — both matching entries go, the other stays, the count is 2, and every
scan page is within the bound. -/
theorem delPattern_removes_exactly_matches_witness :
    (([("orders:all:all:all:1:20", 1), ("orders:user:u1:1:20", 2),
       ("orders:all:u1:all:1:20", 3)] : KV Nat).map (fun e => e.1)).Nodup ∧
    ((cache.delPattern
        ([("orders:all:all:all:1:20", 1), ("orders:user:u1:1:20", 2),
          ("orders:all:u1:all:1:20", 3)] : KV Nat) none "orders:all:*").1
        = [("orders:user:u1:1:20", 2)] ∧
     (cache.delPattern
        ([("orders:all:all:all:1:20", 1), ("orders:user:u1:1:20", 2),
          ("orders:all:u1:all:1:20", 3)] : KV Nat) none "orders:all:*").2 = 2) := by
  have h := delPattern_removes_exactly_matches
    ([("orders:all:all:all:1:20", 1), ("orders:user:u1:1:20", 2),
      ("orders:all:u1:all:1:20", 3)] : KV Nat) "orders:all:*" (by decide)
  exact ⟨by decide, by rw [h.1]; decide, by rw [h.2.1]; decide⟩

/-- C8: every cache accessor is total in the face of a store failure — the
failing call is caught and turned into the miss/failure result (`none`,
`false`, `0`, all-`none`), with the keyspace untouched; and a caught `get`
failure is indistinguishable from a miss on an absent key. -/
theorem cache_accessors_total_on_store_failure {α : Type} (kv : KV α)
    (e : RedisError) (key pat : String) (v : α) (ttl : Nat)
    (keys : List String) :
    cache.get kv (some e) key = none ∧
    cache.set kv (some e) key v ttl = (kv, false) ∧
    cache.del kv (some e) key = (kv, false) ∧
    cache.delPattern kv (some e) pat = (kv, 0) ∧
    cache.mget kv (some e) keys = keys.map (fun _ => none) ∧
    (redisGet kv key = none → cache.get kv (some e) key = cache.get kv none key) :=
  ⟨rfl, rfl, rfl, rfl, rfl, fun hmiss => by simp [cache.get, hmiss]⟩

/-- Witness for C8: on a one-entry keyspace, a failing `get` of the present
key yields `none`, a failing `delPattern` deletes nothing and reports 0, and
for an absent key the failing `get` coincides with the successful miss. -/
theorem cache_accessors_total_on_store_failure_witness :
    cache.get ([("k", 1)] : KV Nat) (some .connectionFailure) "k" = none ∧
    cache.delPattern ([("k", 1)] : KV Nat) (some .connectionFailure) "*"
      = ([("k", 1)], 0) ∧
    cache.get ([("k", 1)] : KV Nat) (some .connectionFailure) "missing"
      = cache.get ([("k", 1)] : KV Nat) none "missing" :=
  ⟨(cache_accessors_total_on_store_failure ([("k", 1)] : KV Nat)
      .connectionFailure "k" "*" 0 300 ["k"]).1,
   (cache_accessors_total_on_store_failure ([("k", 1)] : KV Nat)
      .connectionFailure "k" "*" 0 300 ["k"]).2.2.2.1,
   (cache_accessors_total_on_store_failure ([("k", 1)] : KV Nat)
      .connectionFailure "missing" "*" 0 300 ["k"]).2.2.2.2.2 (by decide)⟩

/-- C9, over the spec-modelled breaker instantiated with the source's
`circuitBreakerOptions`: (1) in the closed state, a call that brings the
window to at least 10 attempts while the recorded failures are already at
least 50% of them trips the breaker to open; (2) while open and within the
30-second cool-down, every call fails fast, with no network attempt and no
state change; (3) once the cool-down has elapsed, a single successful probe
(under the 5-second timeout) returns the breaker to closed; (4) a call that
succeeds at the network level but runs at least 5 seconds is accounted as a
failure. -/
theorem circuit_breaker_trip_failfast_probe :
    (∀ (b : Breaker) (now : Nat) (net : NetOutcome), b.state = .closed →
      10 ≤ b.windowCalls + 1 →
      50 * (b.windowCalls + 1) ≤ b.windowFailures * 100 →
      (breakerCall circuitBreakerOptions b now net).2.state = .opened) ∧
    (∀ (b : Breaker) (now : Nat) (net : NetOutcome), b.state = .opened →
      now < b.openedAt + 30000 →
      breakerCall circuitBreakerOptions b now net = (.failFast, b)) ∧
    (∀ (b : Breaker) (now : Nat) (net : NetOutcome), b.state = .opened →
      b.openedAt + 30000 ≤ now →
      net.succeeded = true → net.duration < 5000 →
      breakerCall circuitBreakerOptions b now net =
        (.delivered true,
         { state := .closed, windowCalls := 0, windowFailures := 0, openedAt := 0 })) ∧
    (∀ (b : Breaker) (now : Nat) (net : NetOutcome), b.state = .closed →
      net.succeeded = true → 5000 ≤ net.duration →
      (breakerCall circuitBreakerOptions b now net).2.windowFailures
        = b.windowFailures + 1) := by
  refine ⟨?_, ?_, ?_, ?_⟩
  · intro b now net hs hvol hratio
    have htrip : shouldTrip circuitBreakerOptions (b.windowCalls + 1)
        (b.windowFailures + (if countsAsFailure circuitBreakerOptions net then 1 else 0))
          = true := by
      unfold shouldTrip circuitBreakerOptions
      simp only [Bool.and_eq_true, decide_eq_true_eq]
      constructor
      · exact hvol
      · have : b.windowFailures * 100
            ≤ (b.windowFailures + (if countsAsFailure circuitBreakerOptions net then 1 else 0)) * 100 := by
          apply Nat.mul_le_mul_right
          omega
        omega
    unfold breakerCall
    rw [hs]
    simp only [htrip, if_true]
  · intro b now net hs helapsed
    unfold breakerCall
    rw [hs]
    have h30 : circuitBreakerOptions.resetTimeout = 30000 := rfl
    rw [h30]
    simp [helapsed]
  · intro b now net hs helapsed hsucc hfast
    have hnofail : countsAsFailure circuitBreakerOptions net = false := by
      unfold countsAsFailure circuitBreakerOptions
      simp [hsucc, Nat.not_le.mpr hfast]
    unfold breakerCall breakerProbe
    rw [hs]
    have h30 : circuitBreakerOptions.resetTimeout = 30000 := rfl
    rw [h30, hnofail]
    have hnot : ¬ now < b.openedAt + 30000 := by omega
    simp [hnot]
  · intro b now net hs hsucc hslow
    have hfail : countsAsFailure circuitBreakerOptions net = true := by
      unfold countsAsFailure circuitBreakerOptions
      simp [hsucc, hslow]
    unfold breakerCall
    rw [hs]
    simp only [hfail, if_true]
    split <;> rfl

/-- Witness for C9: a closed breaker at 9 calls / 5 failures trips on the
10th; the freshly opened breaker fails fast at 10 seconds; succeeds on a
fast probe at 31 seconds and closes; and a 6-second "success" in the closed
state is counted as a failure. -/
theorem circuit_breaker_trip_failfast_probe_witness :
    (breakerCall circuitBreakerOptions
        ⟨.closed, 9, 5, 0⟩ 40000 ⟨false, 100⟩).2.state = .opened ∧
    breakerCall circuitBreakerOptions ⟨.opened, 10, 6, 40000⟩ 50000 ⟨true, 100⟩
      = (.failFast, ⟨.opened, 10, 6, 40000⟩) ∧
    breakerCall circuitBreakerOptions ⟨.opened, 10, 6, 40000⟩ 71000 ⟨true, 100⟩
      = (.delivered true, ⟨.closed, 0, 0, 0⟩) ∧
    (breakerCall circuitBreakerOptions
        ⟨.closed, 3, 1, 0⟩ 5000 ⟨true, 6000⟩).2.windowFailures = 2 :=
  ⟨circuit_breaker_trip_failfast_probe.1 ⟨.closed, 9, 5, 0⟩ 40000 ⟨false, 100⟩
     (by decide) (by decide) (by decide),
   circuit_breaker_trip_failfast_probe.2.1 ⟨.opened, 10, 6, 40000⟩ 50000 ⟨true, 100⟩
     (by decide) (by decide),
   circuit_breaker_trip_failfast_probe.2.2.1 ⟨.opened, 10, 6, 40000⟩ 71000 ⟨true, 100⟩
     (by decide) (by decide) (by decide) (by decide),
   circuit_breaker_trip_failfast_probe.2.2.2 ⟨.closed, 3, 1, 0⟩ 5000 ⟨true, 6000⟩
     (by decide) (by decide) (by decide)⟩

/-- C10: whatever the reason the underlying fetch fails — HTTP error,
timeout, network failure, or the breaker being open — `getProduct` throws
exactly `Product not found: <productId>`, and a creation request containing
such a product (after any prefix of valid lines) is answered 500 with that
very message and persists nothing, so the client cannot tell a missing
product from an unavailable dependency. -/
theorem getProduct_collapses_failures_to_not_found
    (fetch : String → Except FetchError Product) (pid : String) (e : FetchError)
    (hf : fetch pid = .error e) :
    getProduct fetch pid = .error ("Product not found: " ++ pid) ∧
    ∀ (userId : String) (s : AppState) (pre post : List InputItem) (q : Nat),
      userId ≠ "" →
      (∀ it ∈ pre, ∃ v, validateItem fetch it = .ok v) →
      createOrder fetch userId (pre ++ ⟨pid, q⟩ :: post) s
        = (⟨500, some ("Product not found: " ++ pid)⟩, s) := by
  constructor
  · simp [getProduct, hf]
  · intro userId s pre post q hu hpre
    have hitem : validateItem fetch ⟨pid, q⟩
        = .error ("Product not found: " ++ pid) :=
      validateItem_notFound fetch ⟨pid, q⟩ e hf
    have hv := validateProductsParallel_append_error fetch pre post ⟨pid, q⟩ _ hpre hitem
    exact createOrder_error_of_validate fetch userId _ s _ (by simp [hu]) hv

/-- Witness for C10: a breaker-open failure and a timeout produce the very
same `Product not found: p9` 500 response. -/
theorem getProduct_collapses_failures_to_not_found_witness :
    getProduct (fun _ => .error .breakerOpen) "p9"
        = .error "Product not found: p9" ∧
    createOrder (fun _ => .error .breakerOpen) "u1" [⟨"p9", 1⟩] emptyState
        = (⟨500, some "Product not found: p9"⟩, emptyState) ∧
    getProduct (fun _ => .error .timeout) "p9"
        = .error "Product not found: p9" ∧
    createOrder (fun _ => .error .timeout) "u1" [⟨"p9", 1⟩] emptyState
        = (⟨500, some "Product not found: p9"⟩, emptyState) :=
  ⟨(getProduct_collapses_failures_to_not_found
      (fun _ => .error .breakerOpen) "p9" .breakerOpen (by decide)).1,
   by
    have h := (getProduct_collapses_failures_to_not_found
      (fun _ => .error .breakerOpen) "p9" .breakerOpen (by decide)).2
      "u1" emptyState [] [] 1 (by decide) (by intro it hit; simp at hit)
    simpa using h,
   (getProduct_collapses_failures_to_not_found
      (fun _ => .error .timeout) "p9" .timeout (by decide)).1,
   by
    have h := (getProduct_collapses_failures_to_not_found
      (fun _ => .error .timeout) "p9" .timeout (by decide)).2
      "u1" emptyState [] [] 1 (by decide) (by intro it hit; simp at hit)
    simpa using h⟩

end ECom
